import Mathlib

/-!
Shallow embedding of `src/bootstrap.c` (libcouchbase bootstrap/refresh state
machine).  External collaborators (ConfigMonitor, Timer, ClientInstance,
settings) are modelled by the state fields of `Instance` that the bootstrap
code reads and writes through their interfaces; callback invocations are
recorded in observation logs so that "fires exactly once" properties can be
stated.  Machine time (`hrtime_t`) is a `Nat` of nanoseconds, passed in
explicitly where the C code calls `gethrtime()`.
-/

set_option linter.unusedVariables false

/-- `lcb_error_t` values used by `bootstrap.c`. -/
inductive LcbError where
  | success        -- LCB_SUCCESS
  | genericError   -- LCB_ERROR
  | etimedout      -- LCB_ETIMEDOUT
  | clientEnomem   -- LCB_CLIENT_ENOMEM
  | other (n : Nat)  -- any other error code (e.g. a provider error)
deriving DecidableEq

/-- `clconfig_event_t`: events ConfigMonitor delivers to a listener. -/
inductive ClconfigEvent where
  | gotNewConfig      -- CLCONFIG_EVENT_GOT_NEW_CONFIG
  | providersCycled   -- CLCONFIG_EVENT_PROVIDERS_CYCLED
  | otherEvent (n : Nat)
deriving DecidableEq

/-- Configuration providers (`LCB_CLCONFIG_*`). -/
inductive Provider where
  | cccp   -- cluster-push (LCB_CLCONFIG_CCCP)
  | http   -- HTTP streaming (LCB_CLCONFIG_HTTP)
  | mcraw  -- raw memcached (LCB_CLCONFIG_MCRAW)
  | file (n : Nat)
deriving DecidableEq

/-- `clconfig_info`: an opaque config snapshot, tracking only the field the
bootstrap code reads (`origin`). -/
structure ConfigInfo where
  origin : Provider
deriving DecidableEq

/-- `lcb_type_t` of the owning instance. -/
inductive LcbType where
  | bucket   -- LCB_TYPE_BUCKET
  | cluster  -- LCB_TYPE_CLUSTER
deriving DecidableEq

/-- vbucket distribution type (`lcbvb_DISTMODE`). -/
inductive DistType where
  | ketama   -- LCBVB_DIST_KETAMA (point-based hashing)
  | vbucket  -- LCBVB_DIST_VBUCKET
deriving DecidableEq

/-- Targets the session's listener callback pointer can hold
(`listener.callback` is set only to `config_callback` or
`async_step_callback`). -/
inductive CallbackTarget where
  | syncConfig  -- config_callback (the Synchronous target)
  | asyncStep   -- async_step_callback (the Deferred target)
deriving DecidableEq

/-- Targets the session's timer can hold (`lcbio_timer_set_target` is called
only with `initial_timeout` or `async_refresh`). -/
inductive TimerTarget where
  | initialTimeoutT  -- initial_timeout handler
  | asyncRefreshT    -- async_refresh (deferred dispatch)
deriving DecidableEq

/-- The session's `lcbio_pTIMER`: armed/disarmed plus its current target. -/
structure Timer where
  armed : Bool
  target : TimerTarget
deriving DecidableEq

/-- `struct lcb_bootstrap_st`: the bootstrap session.  The `listener`
field's callback pointer is modelled by `listenerCallback`. -/
structure Bootstrap where
  listenerCallback : CallbackTarget
  tm : Timer
  last_refresh : Nat
  bootstrapped : Bool
  errcounter : Nat
deriving DecidableEq

/-- The observable state of the owning `lcb_t` instance together with the
modelled interface state of its external collaborators (ConfigMonitor,
settings) and the session itself (`instance->bootstrap`).  The three `*Calls`
lists and `maybeBreakouts` are observation logs of outgoing callback
invocations, appended in program order. -/
structure Instance where
  type_ : LcbType
  dist_type : DistType
  cur_configinfo : Option ConfigInfo
  last_error : LcbError
  pendops : Int                       -- pending-operation counter (aspend)
  bootstrap : Option Bootstrap
  -- settings consumed by bootstrap.c
  config_timeout : Nat
  weird_things_threshold : Nat
  weird_things_delay : Nat            -- microseconds
  bc_http_stream_time : Int
  -- ConfigMonitor interface state
  confmon_refreshing : Bool           -- lcb_confmon_is_refreshing
  confmon_last_error : LcbError       -- lcb_confmon_last_error
  confmon_config : Option ConfigInfo  -- lcb_confmon_get_config
  confmon_started : Bool
  confmon_starts : Nat                -- number of lcb_confmon_start calls
  confmon_start_rc : LcbError         -- status lcb_confmon_start returns
  confmon_listeners : Nat             -- registered-listener count
  cccp_active : Bool
  http_active : Bool
  rest_conn : Bool                    -- lcb_confmon_get_rest_connection ≠ NULL
  -- observation logs
  bootstrapCalls : List LcbError          -- instance->callbacks.bootstrap
  errorCalls : List (LcbError × String)   -- instance->callbacks.error
  maybeBreakouts : Nat                    -- lcb_maybe_breakout invocations
deriving DecidableEq

/-- `LCB_US2NS`: microseconds to nanoseconds. -/
def LCB_US2NS (us : Nat) : Nat := us * 1000

/-- `LCBT_VBCONFIG(instance)`: whether the owner holds a config snapshot. -/
def LCBT_VBCONFIG (inst : Instance) : Bool := inst.cur_configinfo.isSome

/-- `lcb_update_vbconfig`: apply the snapshot as the active topology. -/
def lcb_update_vbconfig (inst : Instance) (info : Option ConfigInfo) : Instance :=
  { inst with cur_configinfo := info }

/-- `lcb_confmon_start`: records the start and returns the monitor's status. -/
def lcb_confmon_start (inst : Instance) : LcbError × Instance :=
  (inst.confmon_start_rc,
   { inst with confmon_started := true, confmon_starts := inst.confmon_starts + 1 })

/-- The `instance->cur_configinfo->origin != LCB_CLCONFIG_MCRAW` test.  The C
code dereferences the pointer; on the paths that reach it a config has just
been applied, so the `none` case is the unreachable null dereference. -/
def curOriginNotMcraw : Option ConfigInfo → Bool
  | some ci => ci.origin ≠ Provider.mcraw
  | none => true

/-- `initial_bootstrap_error` (src/bootstrap.c:76-93): report and resolve a
failed initial bootstrap.  Dereferences `instance->bootstrap`; the `none`
branch is unreachable (only called from paths where the session exists). -/
def initial_bootstrap_error (inst : Instance) (err : LcbError) (errinfo : String) :
    Instance :=
  match inst.bootstrap with
  | none => inst
  | some bs =>
    let le := if inst.confmon_last_error = LcbError.success then err
              else inst.confmon_last_error
    let inst := { inst with last_error := le,
                            errorCalls := inst.errorCalls ++ [(le, errinfo)] }
    let bs := { bs with tm := { bs.tm with armed := false } }
    let inst := { inst with bootstrap := some bs,
                            bootstrapCalls := inst.bootstrapCalls ++ [le],
                            pendops := inst.pendops - 1 }
    { inst with maybeBreakouts := inst.maybeBreakouts + 1 }

/-- `config_callback` (src/bootstrap.c:26-73): the configuration-event
handler (§4.3).  `info` is the event's config snapshot (NULL modelled as
`none`). -/
def config_callback (inst : Instance) (event : ClconfigEvent)
    (info : Option ConfigInfo) : Instance :=
  match inst.bootstrap with
  | none => inst
  | some bs =>
    if event ≠ ClconfigEvent.gotNewConfig then
      if event = ClconfigEvent.providersCycled then
        if ¬ LCBT_VBCONFIG inst then
          initial_bootstrap_error inst LcbError.genericError
            "No more bootstrap providers remain"
        else inst
      else inst
    else
      let bs := { bs with listenerCallback := CallbackTarget.asyncStep,
                          tm := { bs.tm with armed := false } }
      let inst := { inst with last_error := LcbError.success, bootstrap := some bs }
      let inst := if inst.type_ ≠ LcbType.cluster then lcb_update_vbconfig inst info
                  else inst
      let inst :=
        if ¬ bs.bootstrapped then
          let inst := { inst with
            bootstrap := some { bs with bootstrapped := true },
            pendops := inst.pendops - 1 }
          let inst :=
            if inst.type_ = LcbType.bucket ∧ inst.dist_type = DistType.ketama ∧
               curOriginNotMcraw inst.cur_configinfo then
              { inst with bc_http_stream_time := -1,
                          http_active := true, cccp_active := false }
            else inst
          { inst with bootstrapCalls := inst.bootstrapCalls ++ [LcbError.success] }
        else inst
      { inst with maybeBreakouts := inst.maybeBreakouts + 1 }

/-- `initial_timeout` (src/bootstrap.c:100-104): the initial-timeout handler. -/
def initial_timeout (inst : Instance) : Instance :=
  initial_bootstrap_error inst LcbError.etimedout "Failed to bootstrap in time"

/-- `async_refresh` (src/bootstrap.c:109-117): the deferred dispatch — fetch
the monitor's current best config and run `config_callback` with a
synthesized new-config event. -/
def async_refresh (inst : Instance) : Instance :=
  config_callback inst ClconfigEvent.gotNewConfig inst.confmon_config

/-- `async_step_callback` (src/bootstrap.c:123-142): the Deferred listener
target — schedule one deferred dispatch, dropping the request if one is
already scheduled. -/
def async_step_callback (inst : Instance) (event : ClconfigEvent)
    (info : Option ConfigInfo) : Instance :=
  match inst.bootstrap with
  | none => inst
  | some bs =>
    if event ≠ ClconfigEvent.gotNewConfig then inst
    else if bs.tm.armed ∧ bs.tm.target = TimerTarget.asyncRefreshT then inst
    else
      -- lcbio_timer_set_target(bs->tm, async_refresh); lcbio_async_signal(bs->tm)
      let bs := { bs with tm := { armed := true, target := TimerTarget.asyncRefreshT } }
      { inst with bootstrap := some bs }

/-- ConfigMonitor delivering an event to the session's registered listener:
dispatch through the listener's current callback pointer. -/
def deliver (inst : Instance) (event : ClconfigEvent) (info : Option ConfigInfo) :
    Instance :=
  match inst.bootstrap with
  | none => inst
  | some bs =>
    match bs.listenerCallback with
    | CallbackTarget.syncConfig => config_callback inst event info
    | CallbackTarget.asyncStep => async_step_callback inst event info

/-- The event loop firing the session's timer: a single-shot timer disarms
itself and runs its current target on a fresh stack frame. -/
def timer_fire (inst : Instance) : Instance :=
  match inst.bootstrap with
  | none => inst
  | some bs =>
    if bs.tm.armed then
      let bs2 := { bs with tm := { bs.tm with armed := false } }
      let inst := { inst with bootstrap := some bs2 }
      match bs.tm.target with
      | TimerTarget.initialTimeoutT => initial_timeout inst
      | TimerTarget.asyncRefreshT => async_refresh inst
    else inst

/-- `bootstrap_common` (src/bootstrap.c:144-178).  `now` is the value
`gethrtime()` returns; `allocOk` is whether `calloc` succeeds. -/
def bootstrap_common (inst : Instance) (initial : Bool) (now : Nat)
    (allocOk : Bool) : LcbError × Instance :=
  if inst.bootstrap.isSome ∧ inst.confmon_refreshing then
    (LcbError.success, inst)
  else
    let alloc : Option (Bootstrap × Instance) :=
      match inst.bootstrap with
      | some bs => some (bs, inst)
      | none =>
        if allocOk then
          -- calloc zeroes the struct; the timer is created with target
          -- initial_timeout (lcbio_timer_new), disarmed.
          some ({ listenerCallback := CallbackTarget.syncConfig,
                  tm := { armed := false, target := TimerTarget.initialTimeoutT },
                  last_refresh := 0, bootstrapped := false, errcounter := 0 },
                { inst with confmon_listeners := inst.confmon_listeners + 1 })
        else none
    match alloc with
    | none => (LcbError.clientEnomem, inst)
    | some (bs, inst) =>
      let bs := { bs with last_refresh := now }
      let (bs, inst) :=
        if initial then
          ({ bs with listenerCallback := CallbackTarget.syncConfig,
                     tm := { armed := true, target := TimerTarget.initialTimeoutT } },
           { inst with pendops := inst.pendops + 1 })
        else
          ({ bs with listenerCallback := CallbackTarget.asyncStep }, inst)
      let inst := { inst with bootstrap := some bs }
      lcb_confmon_start inst

/-- `lcb_bootstrap_initial` (src/bootstrap.c:180-184).  `lcb_confmon_prepare`
touches only provider-list state outside the modelled ConfigMonitor
interface, so it is the identity on the modelled state. -/
def lcb_bootstrap_initial (inst : Instance) (now : Nat) (allocOk : Bool) :
    LcbError × Instance :=
  bootstrap_common inst true now allocOk

/-- `lcb_bootstrap_refresh` (src/bootstrap.c:186-189). -/
def lcb_bootstrap_refresh (inst : Instance) (now : Nat) (allocOk : Bool) :
    LcbError × Instance :=
  bootstrap_common inst false now allocOk

/-- `lcb_bootstrap_errcount_incr` (src/bootstrap.c:191-212).  The function
dereferences `instance->bootstrap` unconditionally; `none` models the
undefined null dereference when no session exists. -/
def lcb_bootstrap_errcount_incr (inst : Instance) (now : Nat) :
    Option Instance :=
  match inst.bootstrap with
  | none => none
  | some bs =>
    let errthresh := inst.weird_things_threshold
    let bs := { bs with errcounter := bs.errcounter + 1 }
    let next_refresh_time := bs.last_refresh + LCB_US2NS inst.weird_things_delay
    if now < next_refresh_time ∧ bs.errcounter < errthresh then
      some { inst with bootstrap := some bs }
    else
      let bs := { bs with errcounter := 0 }
      some (lcb_bootstrap_refresh { inst with bootstrap := some bs } now true).2

/-- `lcb_bootstrap_destroy` (src/bootstrap.c:214-227). -/
def lcb_bootstrap_destroy (inst : Instance) : Instance :=
  match inst.bootstrap with
  | none => inst
  | some _ =>
    { inst with bootstrap := none,
                confmon_listeners := inst.confmon_listeners - 1 }

/-- `lcb_get_bootstrap_status` (src/bootstrap.c:229-246). -/
def lcb_get_bootstrap_status (inst : Instance) : LcbError :=
  if inst.cur_configinfo.isSome then LcbError.success
  else if inst.last_error ≠ LcbError.success then inst.last_error
  else if inst.type_ = LcbType.cluster ∧ inst.rest_conn then LcbError.success
  else LcbError.genericError

/-- Events the environment can apply to a client: the public entry points,
a ConfigMonitor notification to the registered listener, and the timer
firing. -/
inductive Ev where
  | initEv (now : Nat) (allocOk : Bool)
  | refreshEv (now : Nat) (allocOk : Bool)
  | monEv (e : ClconfigEvent) (info : Option ConfigInfo)
  | timerEv
  | errEv (now : Nat)
  | destroyEv
deriving DecidableEq

/-- One step of the client under an event. -/
def step (inst : Instance) : Ev → Instance
  | Ev.initEv now ok => (lcb_bootstrap_initial inst now ok).2
  | Ev.refreshEv now ok => (lcb_bootstrap_refresh inst now ok).2
  | Ev.monEv e info => deliver inst e info
  | Ev.timerEv => timer_fire inst
  | Ev.errEv now => (lcb_bootstrap_errcount_incr inst now).getD inst
  | Ev.destroyEv => lcb_bootstrap_destroy inst

/-- Run a sequence of events. -/
def run (inst : Instance) (evs : List Ev) : Instance :=
  evs.foldl step inst

/-- A fresh client before any bootstrap: no session, no config, baseline
counters.  Parameterised by instance type and distribution. -/
def freshInstance (ty : LcbType) (dt : DistType) : Instance :=
  { type_ := ty, dist_type := dt, cur_configinfo := none,
    last_error := LcbError.success, pendops := 0, bootstrap := none,
    config_timeout := 2500000, weird_things_threshold := 3,
    weird_things_delay := 1000000, bc_http_stream_time := 0,
    confmon_refreshing := false, confmon_last_error := LcbError.success,
    confmon_config := none, confmon_started := false, confmon_starts := 0,
    confmon_start_rc := LcbError.success, confmon_listeners := 0,
    cccp_active := true, http_active := false, rest_conn := false,
    bootstrapCalls := [], errorCalls := [], maybeBreakouts := 0 }

/-- A client with an existing session, obtained by a refresh at time 0 on a
fresh bucket-type instance (used as a concrete input for witnesses). -/
def sessionedInstance : Instance :=
  (lcb_bootstrap_refresh (freshInstance LcbType.bucket DistType.vbucket) 0 true).2

/-- Project the session's error counter, when a session exists. -/
def errcounterOf (inst : Instance) : Option Nat :=
  inst.bootstrap.map Bootstrap.errcounter

/-- Apply `lcb_bootstrap_errcount_incr` where the session is known to exist. -/
def errStep (inst : Instance) (now : Nat) : Instance :=
  (lcb_bootstrap_errcount_incr inst now).getD inst

/-- C1: the claim says the completion callback fires at most once per
Initial-bootstrap attempt and the pending-operation counter is decremented
exactly once, "including the case where a new-config-available event is
processed after the initial timeout has already fired".  The code violates
exactly that case: after the timeout resolves the attempt, the listener is
still the synchronous `config_callback` with `bootstrapped` still false, so a
late new-config event resolves the attempt a second time — the completion
callback fires twice (ETIMEDOUT, then SUCCESS) and the counter is decremented
twice, ending at -1 from a baseline of 0. -/
theorem timeout_then_late_config_double_resolution :
    (run (freshInstance LcbType.bucket DistType.vbucket)
        [Ev.initEv 0 true, Ev.timerEv,
         Ev.monEv ClconfigEvent.gotNewConfig (some { origin := Provider.http })]).bootstrapCalls
      = [LcbError.etimedout, LcbError.success] ∧
    (run (freshInstance LcbType.bucket DistType.vbucket)
        [Ev.initEv 0 true, Ev.timerEv,
         Ev.monEv ClconfigEvent.gotNewConfig (some { origin := Provider.http })]).pendops
      = -1 := by
  decide

/-- C5: if a session exists and ConfigMonitor reports it is refreshing,
`bootstrap_common` returns success and the whole client state — session,
timer, `last_refresh`, pending-operation counter, listener target, logs — is
unchanged (the result carries the input state verbatim). -/
theorem bootstrap_common_refresh_dedup (inst : Instance) (initial : Bool)
    (now : Nat) (allocOk : Bool) (hbs : inst.bootstrap.isSome = true)
    (href : inst.confmon_refreshing = true) :
    bootstrap_common inst initial now allocOk = (LcbError.success, inst) := by
  unfold bootstrap_common
  simp [hbs, href]

theorem bootstrap_common_refresh_dedup_witness :
    bootstrap_common { sessionedInstance with confmon_refreshing := true }
        true 5 true
      = (LcbError.success, { sessionedInstance with confmon_refreshing := true }) :=
  bootstrap_common_refresh_dedup _ true 5 true (by decide) (by decide)

/-- C6: when no session exists and allocation fails, both entry points
return LCB_CLIENT_ENOMEM with the client state unchanged verbatim: no
listener registered, ConfigMonitor not started, no timer, pending-operation
or other state created or changed. -/
theorem alloc_failure_no_side_effects (inst : Instance) (now : Nat)
    (hbs : inst.bootstrap = none) :
    lcb_bootstrap_initial inst now false = (LcbError.clientEnomem, inst) ∧
    lcb_bootstrap_refresh inst now false = (LcbError.clientEnomem, inst) := by
  unfold lcb_bootstrap_initial lcb_bootstrap_refresh bootstrap_common
  simp [hbs]

theorem alloc_failure_no_side_effects_witness :
    lcb_bootstrap_initial (freshInstance LcbType.bucket DistType.vbucket) 7 false
      = (LcbError.clientEnomem, freshInstance LcbType.bucket DistType.vbucket) ∧
    lcb_bootstrap_refresh (freshInstance LcbType.bucket DistType.vbucket) 7 false
      = (LcbError.clientEnomem, freshInstance LcbType.bucket DistType.vbucket) :=
  alloc_failure_no_side_effects (freshInstance LcbType.bucket DistType.vbucket) 7 rfl

/-- C7: a providers-cycled event delivered to the configuration-event
handler invokes the initial-bootstrap failure path with reason "No more
bootstrap providers remain" when the owner has no config snapshot (the
reported code preferring ConfigMonitor's last error over LCB_ERROR), and is
ignored with no state change when a config snapshot exists. -/
theorem providers_cycled_dispatch (inst : Instance) (bs : Bootstrap)
    (info : Option ConfigInfo) (hbs : inst.bootstrap = some bs) :
    (inst.cur_configinfo = none →
      config_callback inst ClconfigEvent.providersCycled info =
        initial_bootstrap_error inst LcbError.genericError
          "No more bootstrap providers remain" ∧
      (config_callback inst ClconfigEvent.providersCycled info).errorCalls =
        inst.errorCalls ++
          [((if inst.confmon_last_error = LcbError.success then LcbError.genericError
             else inst.confmon_last_error), "No more bootstrap providers remain")]) ∧
    (∀ ci, inst.cur_configinfo = some ci →
      config_callback inst ClconfigEvent.providersCycled info = inst) := by
  constructor
  · intro hcfg
    constructor
    · unfold config_callback
      rw [hbs]
      simp [LCBT_VBCONFIG, hcfg]
    · unfold config_callback initial_bootstrap_error
      rw [hbs]
      simp [LCBT_VBCONFIG, hcfg]
  · intro ci hcfg
    unfold config_callback
    rw [hbs]
    simp [LCBT_VBCONFIG, hcfg]

theorem providers_cycled_dispatch_witness :
    config_callback { sessionedInstance with
        cur_configinfo := some { origin := Provider.http } }
      ClconfigEvent.providersCycled none
      = { sessionedInstance with
          cur_configinfo := some { origin := Provider.http } } := by
  have h := providers_cycled_dispatch
    { sessionedInstance with cur_configinfo := some { origin := Provider.http } }
    { listenerCallback := CallbackTarget.asyncStep,
      tm := { armed := false, target := TimerTarget.initialTimeoutT },
      last_refresh := 0, bootstrapped := false, errcounter := 0 }
    none (by decide)
  exact h.2 { origin := Provider.http } rfl

/-- C9: the status query follows exactly the claimed precedence: config
snapshot present beats everything and yields success; otherwise a
non-trivial last error is returned; otherwise a cluster-management-only
instance with an established management connection yields success; otherwise
the generic LCB_ERROR.  The embedding of `lcb_get_bootstrap_status` is a
pure function of the instance, so it modifies no state. -/
theorem bootstrap_status_precedence (inst : Instance) :
    (inst.cur_configinfo.isSome = true →
      lcb_get_bootstrap_status inst = LcbError.success) ∧
    (inst.cur_configinfo = none → inst.last_error ≠ LcbError.success →
      lcb_get_bootstrap_status inst = inst.last_error) ∧
    (inst.cur_configinfo = none → inst.last_error = LcbError.success →
      inst.type_ = LcbType.cluster → inst.rest_conn = true →
      lcb_get_bootstrap_status inst = LcbError.success) ∧
    (inst.cur_configinfo = none → inst.last_error = LcbError.success →
      ¬ (inst.type_ = LcbType.cluster ∧ inst.rest_conn = true) →
      lcb_get_bootstrap_status inst = LcbError.genericError) := by
  unfold lcb_get_bootstrap_status
  refine ⟨?_, ?_, ?_, ?_⟩ <;> intros <;> simp_all

theorem bootstrap_status_precedence_witness :
    lcb_get_bootstrap_status (freshInstance LcbType.bucket DistType.vbucket)
      = LcbError.genericError :=
  (bootstrap_status_precedence (freshInstance LcbType.bucket DistType.vbucket)).2.2.2
    rfl rfl (by decide)

/-- C2: on every `errcount_incr` call on an existing session the counter is
incremented; inside the throttle window with the incremented counter still
below the threshold, nothing but the counter changes (no refresh); otherwise
the counter is reset to 0 and a Refresh-mode bootstrap is invoked.  The
closed conjunct is the spec's scenario with threshold 3 and delay 1000ms
(`weird_things_delay = 1000000`µs): after a refresh at time 0, two calls
within the window leave `confmon_starts` at 1 (no refresh) with counters 1
then 2, and the third call resets the counter to 0 and starts exactly one
refresh (`confmon_starts` goes to 2). -/
theorem errcount_incr_throttle (inst : Instance) (bs : Bootstrap) (now : Nat)
    (hbs : inst.bootstrap = some bs) :
    (now < bs.last_refresh + LCB_US2NS inst.weird_things_delay ∧
        bs.errcounter + 1 < inst.weird_things_threshold →
      lcb_bootstrap_errcount_incr inst now =
        some { inst with bootstrap := some { bs with errcounter := bs.errcounter + 1 } }) ∧
    (¬ (now < bs.last_refresh + LCB_US2NS inst.weird_things_delay ∧
        bs.errcounter + 1 < inst.weird_things_threshold) →
      lcb_bootstrap_errcount_incr inst now =
        some (lcb_bootstrap_refresh
          { inst with bootstrap := some { bs with errcounter := 0 } } now true).2) ∧
    (errcounterOf (errStep sessionedInstance 100) = some 1 ∧
     (errStep sessionedInstance 100).confmon_starts = 1 ∧
     errcounterOf (errStep (errStep sessionedInstance 100) 200) = some 2 ∧
     (errStep (errStep sessionedInstance 100) 200).confmon_starts = 1 ∧
     errcounterOf (errStep (errStep (errStep sessionedInstance 100) 200) 300)
       = some 0 ∧
     (errStep (errStep (errStep sessionedInstance 100) 200) 300).confmon_starts
       = 2) := by
  refine ⟨?_, ?_, by decide⟩
  · intro h
    unfold lcb_bootstrap_errcount_incr
    rw [hbs]
    simp [h]
  · intro h
    unfold lcb_bootstrap_errcount_incr
    rw [hbs]
    simp [h]

/-- The session inside `sessionedInstance`, and that session with its error
counter at a given value. -/
def sessionBs (k : Nat) : Bootstrap :=
  { listenerCallback := CallbackTarget.asyncStep,
    tm := { armed := false, target := TimerTarget.initialTimeoutT },
    last_refresh := 0, bootstrapped := false, errcounter := k }

theorem errcount_incr_throttle_witness :
    lcb_bootstrap_errcount_incr sessionedInstance 100 =
      some { sessionedInstance with bootstrap := some (sessionBs 1) } := by
  have h := errcount_incr_throttle sessionedInstance (sessionBs 0) 100 (by decide)
  exact h.1 (by decide)

/-- Helper: a new-config event delivered to the Deferred listener target
while the timer is already armed with the deferred-dispatch target is
dropped: the state is unchanged. -/
theorem async_step_callback_dropped (inst : Instance) (bs : Bootstrap)
    (info : Option ConfigInfo) (hbs : inst.bootstrap = some bs)
    (harm : bs.tm.armed = true) (htgt : bs.tm.target = TimerTarget.asyncRefreshT) :
    async_step_callback inst ClconfigEvent.gotNewConfig info = inst := by
  unfold async_step_callback
  rw [hbs]
  simp [harm, htgt]

/-- C3: while a deferred dispatch is pending (timer armed with the
`async_refresh` target), any number of further new-config events delivered to
the Deferred listener target leave the state unchanged (all dropped), and
when the timer fires, the single dispatch runs the configuration-event
handler once with a synthesized new-config event carrying ConfigMonitor's
then-current best config (`confmon_config`), not any event's own payload. -/
theorem deferred_dispatch_coalescing (inst : Instance) (bs : Bootstrap)
    (hbs : inst.bootstrap = some bs) (harm : bs.tm.armed = true)
    (htgt : bs.tm.target = TimerTarget.asyncRefreshT) :
    (∀ infos : List (Option ConfigInfo),
      infos.foldl (fun s i => async_step_callback s ClconfigEvent.gotNewConfig i) inst
        = inst) ∧
    timer_fire inst =
      config_callback
        { inst with bootstrap := some { bs with tm := { bs.tm with armed := false } } }
        ClconfigEvent.gotNewConfig inst.confmon_config := by
  constructor
  · intro infos
    induction infos with
    | nil => rfl
    | cons i is ih =>
      rw [List.foldl_cons, async_step_callback_dropped inst bs i hbs harm htgt]
      exact ih
  · unfold timer_fire async_refresh
    rw [hbs]
    simp [harm, htgt]

/-- A session state with a deferred dispatch pending, for the C3 witness. -/
def pendingBs : Bootstrap :=
  { listenerCallback := CallbackTarget.asyncStep,
    tm := { armed := true, target := TimerTarget.asyncRefreshT },
    last_refresh := 0, bootstrapped := true, errcounter := 0 }

/-- A client in steady state with a deferred dispatch pending. -/
def pendingInstance : Instance :=
  { sessionedInstance with
      bootstrap := some pendingBs,
      confmon_config := some { origin := Provider.cccp } }

theorem deferred_dispatch_coalescing_witness :
    List.foldl (fun s i => async_step_callback s ClconfigEvent.gotNewConfig i)
        pendingInstance [none, some { origin := Provider.http }, none]
      = pendingInstance :=
  (deferred_dispatch_coalescing pendingInstance pendingBs rfl rfl rfl).1
    [none, some { origin := Provider.http }, none]

/-- Helper: the failure path only disarms the timer inside the session — the
session's other fields and its existence are untouched. -/
theorem initial_bootstrap_error_bootstrap (inst : Instance) (err : LcbError)
    (s : String) :
    (initial_bootstrap_error inst err s).bootstrap =
      inst.bootstrap.map
        (fun bs => { bs with tm := { bs.tm with armed := false } }) := by
  unfold initial_bootstrap_error
  cases hb : inst.bootstrap <;> simp [hb]

/-- Helper: the failure path never touches the provider-activation flags or
the HTTP-stream setting. -/
theorem initial_bootstrap_error_flags (inst : Instance) (err : LcbError)
    (s : String) :
    (initial_bootstrap_error inst err s).cccp_active = inst.cccp_active ∧
    (initial_bootstrap_error inst err s).http_active = inst.http_active ∧
    (initial_bootstrap_error inst err s).bc_http_stream_time
      = inst.bc_http_stream_time := by
  unfold initial_bootstrap_error
  cases hb : inst.bootstrap <;> simp [hb]

/-- Helper: processing a new-config event leaves the session in a canonical
shape — Deferred listener target, timer disarmed, `bootstrapped` true — no
matter whether this was the first success. -/
theorem config_callback_gotNew_bootstrap (inst : Instance) (bs : Bootstrap)
    (info : Option ConfigInfo) (hbs : inst.bootstrap = some bs) :
    (config_callback inst ClconfigEvent.gotNewConfig info).bootstrap =
      some { bs with listenerCallback := CallbackTarget.asyncStep,
                     tm := { bs.tm with armed := false },
                     bootstrapped := true } := by
  unfold config_callback
  rw [hbs]
  by_cases hb : bs.bootstrapped <;>
    simp [hb, lcb_update_vbconfig] <;> (repeat' split) <;> simp

/-- Helper: once `bootstrapped` is set, no configuration event resets it —
the session coming out of `config_callback` still has `bootstrapped = true`. -/
theorem config_callback_keeps_bootstrapped (inst : Instance) (bs : Bootstrap)
    (e : ClconfigEvent) (info : Option ConfigInfo)
    (hbs : inst.bootstrap = some bs) (hb : bs.bootstrapped = true) :
    ((config_callback inst e info).bootstrap).map Bootstrap.bootstrapped
      = some true := by
  by_cases he : e = ClconfigEvent.gotNewConfig
  · subst he
    rw [config_callback_gotNew_bootstrap inst bs info hbs]
    simp
  · unfold config_callback
    rw [hbs]
    simp [he]
    split
    · split
      · rw [initial_bootstrap_error_bootstrap]
        simp [hbs, hb]
      · simp [hbs, hb]
    · simp [hbs, hb]

/-- Helper: the one-time provider-adjustment branch is guarded by
`!bs->bootstrapped`, so once `bootstrapped` is set no configuration event
changes the provider-activation flags or the HTTP-stream setting. -/
theorem config_callback_keeps_flags (inst : Instance) (bs : Bootstrap)
    (e : ClconfigEvent) (info : Option ConfigInfo)
    (hbs : inst.bootstrap = some bs) (hb : bs.bootstrapped = true) :
    (config_callback inst e info).cccp_active = inst.cccp_active ∧
    (config_callback inst e info).http_active = inst.http_active ∧
    (config_callback inst e info).bc_http_stream_time
      = inst.bc_http_stream_time := by
  unfold config_callback
  rw [hbs]
  by_cases he : e = ClconfigEvent.gotNewConfig
  · simp [he, hb, lcb_update_vbconfig]
    split <;> simp
  · simp [he]
    split
    · split
      · exact initial_bootstrap_error_flags inst LcbError.genericError _
      · simp
    · simp


/-- Helper: the Deferred listener target only (re)schedules the deferred
dispatch — it never changes the session's listener target, `bootstrapped`
flag, provider flags or the HTTP-stream setting. -/
theorem async_step_callback_preserves (inst : Instance) (bs : Bootstrap)
    (e : ClconfigEvent) (info : Option ConfigInfo)
    (hbs : inst.bootstrap = some bs) :
    ((async_step_callback inst e info).bootstrap).map Bootstrap.listenerCallback
      = some bs.listenerCallback ∧
    ((async_step_callback inst e info).bootstrap).map Bootstrap.bootstrapped
      = some bs.bootstrapped ∧
    (async_step_callback inst e info).cccp_active = inst.cccp_active ∧
    (async_step_callback inst e info).http_active = inst.http_active ∧
    (async_step_callback inst e info).bc_http_stream_time
      = inst.bc_http_stream_time := by
  unfold async_step_callback
  rw [hbs]
  by_cases he : e = ClconfigEvent.gotNewConfig
  · by_cases hp : bs.tm.armed = true ∧ bs.tm.target = TimerTarget.asyncRefreshT
    · simp [he, hp, hbs]
    · simp [he, hp, hbs]
  · simp [he, hbs]

/-- Helper: `bootstrap_common` never touches the provider-activation flags or
the HTTP-stream setting; on an existing session it never changes the
`bootstrapped` flag, and in Refresh mode the listener target it leaves behind
is the Deferred one (or the session is untouched mid-refresh). -/
theorem bootstrap_common_preserves (inst : Instance) (initial : Bool)
    (now : Nat) (ok : Bool) :
    ((bootstrap_common inst initial now ok).2.cccp_active = inst.cccp_active ∧
     (bootstrap_common inst initial now ok).2.http_active = inst.http_active ∧
     (bootstrap_common inst initial now ok).2.bc_http_stream_time
       = inst.bc_http_stream_time) ∧
    (∀ bs, inst.bootstrap = some bs →
      ((bootstrap_common inst initial now ok).2.bootstrap).map
          Bootstrap.bootstrapped = some bs.bootstrapped) ∧
    (∀ bs, inst.bootstrap = some bs →
      bs.listenerCallback = CallbackTarget.asyncStep → initial = false →
      ((bootstrap_common inst initial now ok).2.bootstrap).map
          Bootstrap.listenerCallback = some CallbackTarget.asyncStep) := by
  unfold bootstrap_common lcb_confmon_start
  refine ⟨?_, ?_, ?_⟩
  · split
    · simp
    · cases hb : inst.bootstrap
      · by_cases hok : ok = true
        · by_cases hi : initial = true <;> simp [hb, hok, hi]
        · simp [hb, hok]
      · by_cases hi : initial = true <;> simp [hb, hi]
  · intro bs hbs
    rw [hbs]
    split
    · simp [hbs]
    · by_cases hi : initial = true <;> simp [hbs, hi]
  · intro bs hbs hl hinit
    subst hinit
    rw [hbs]
    split
    · simp [hbs, hl]
    · simp [hbs]

/-- Helper: one-step preservation facts used by the invariants below — for
any single event: a Deferred listener target stays Deferred unless the event
is an Initial bootstrap; a true `bootstrapped` flag stays true; and once
`bootstrapped` is true no event changes the provider-activation flags or the
HTTP-stream setting. -/
theorem step_preserves (inst : Instance) (bs : Bootstrap) (ev : Ev)
    (hbs : inst.bootstrap = some bs) :
    ((∀ now ok, ev ≠ Ev.initEv now ok) →
      bs.listenerCallback = CallbackTarget.asyncStep →
      ∀ bs2, (step inst ev).bootstrap = some bs2 →
        bs2.listenerCallback = CallbackTarget.asyncStep) ∧
    (bs.bootstrapped = true →
      ∀ bs2, (step inst ev).bootstrap = some bs2 → bs2.bootstrapped = true) ∧
    (bs.bootstrapped = true →
      (step inst ev).cccp_active = inst.cccp_active ∧
      (step inst ev).http_active = inst.http_active ∧
      (step inst ev).bc_http_stream_time = inst.bc_http_stream_time) := by
  cases ev with
  | initEv now ok =>
    refine ⟨?_, ?_, ?_⟩
    · intro h
      exact absurd rfl (h now ok)
    · intro hb bs2 h2
      have hm := (bootstrap_common_preserves inst true now ok).2.1 bs hbs
      rw [show step inst (Ev.initEv now ok)
            = (bootstrap_common inst true now ok).2 from rfl] at h2
      rw [h2] at hm
      simp at hm
      rw [hm, hb]
    · intro hb
      exact (bootstrap_common_preserves inst true now ok).1
  | refreshEv now ok =>
    refine ⟨?_, ?_, ?_⟩
    · intro h hl bs2 h2
      have hm := (bootstrap_common_preserves inst false now ok).2.2 bs hbs hl rfl
      rw [show step inst (Ev.refreshEv now ok)
            = (bootstrap_common inst false now ok).2 from rfl] at h2
      rw [h2] at hm
      simp at hm
      exact hm
    · intro hb bs2 h2
      have hm := (bootstrap_common_preserves inst false now ok).2.1 bs hbs
      rw [show step inst (Ev.refreshEv now ok)
            = (bootstrap_common inst false now ok).2 from rfl] at h2
      rw [h2] at hm
      simp at hm
      rw [hm, hb]
    · intro hb
      exact (bootstrap_common_preserves inst false now ok).1
  | monEv e info =>
    have hstep : step inst (Ev.monEv e info) = deliver inst e info := rfl
    cases hl : bs.listenerCallback with
    | syncConfig =>
      have hd : deliver inst e info = config_callback inst e info := by
        unfold deliver
        rw [hbs]
        simp [hl]
      refine ⟨?_, ?_, ?_⟩
      · intro h hl2
        simp at hl2
      · intro hb bs2 h2
        have hm := config_callback_keeps_bootstrapped inst bs e info hbs hb
        rw [hstep, hd] at h2
        rw [h2] at hm
        simp at hm
        rw [hm]
      · intro hb
        rw [hstep, hd]
        exact config_callback_keeps_flags inst bs e info hbs hb
    | asyncStep =>
      have hd : deliver inst e info = async_step_callback inst e info := by
        unfold deliver
        rw [hbs]
        simp [hl]
      have hp := async_step_callback_preserves inst bs e info hbs
      refine ⟨?_, ?_, ?_⟩
      · intro h hl2 bs2 h2
        rw [hstep, hd] at h2
        have hm := hp.1
        rw [h2] at hm
        simp at hm
        rw [hm, hl]
      · intro hb bs2 h2
        rw [hstep, hd] at h2
        have hm := hp.2.1
        rw [h2] at hm
        simp at hm
        rw [hm, hb]
      · intro hb
        rw [hstep, hd]
        exact ⟨hp.2.2.1, hp.2.2.2.1, hp.2.2.2.2⟩
  | timerEv =>
    have hstep : step inst Ev.timerEv = timer_fire inst := rfl
    by_cases harm : bs.tm.armed = true
    · cases htgt : bs.tm.target with
      | initialTimeoutT =>
        have hd : timer_fire inst = initial_bootstrap_error { inst with bootstrap := some { bs with tm := { bs.tm with armed := false } } } LcbError.etimedout "Failed to bootstrap in time" := by
          unfold timer_fire initial_timeout
          rw [hbs]
          simp [harm, htgt]
        have hshape := initial_bootstrap_error_bootstrap { inst with bootstrap := some { bs with tm := { bs.tm with armed := false } } } LcbError.etimedout "Failed to bootstrap in time"
        have hflags := initial_bootstrap_error_flags { inst with bootstrap := some { bs with tm := { bs.tm with armed := false } } } LcbError.etimedout "Failed to bootstrap in time"
        refine ⟨?_, ?_, ?_⟩
        · intro h hl bs2 h2
          rw [hstep, hd, hshape] at h2
          simp at h2
          rw [← h2]
          exact hl
        · intro hb bs2 h2
          rw [hstep, hd, hshape] at h2
          simp at h2
          rw [← h2]
          exact hb
        · intro hb
          rw [hstep, hd]
          simpa using hflags
      | asyncRefreshT =>
        have hd : timer_fire inst = config_callback { inst with bootstrap := some { bs with tm := { bs.tm with armed := false } } } ClconfigEvent.gotNewConfig inst.confmon_config := by
          unfold timer_fire async_refresh
          rw [hbs]
          simp [harm, htgt]
        have hbs2 : ({ inst with bootstrap := some { bs with tm := { bs.tm with armed := false } } } : Instance).bootstrap = some { bs with tm := { bs.tm with armed := false } } := rfl
        refine ⟨?_, ?_, ?_⟩
        · intro h hl bs2 h2
          rw [hstep, hd, config_callback_gotNew_bootstrap _ _ _ hbs2] at h2
          simp at h2
          rw [← h2]
        · intro hb bs2 h2
          rw [hstep, hd, config_callback_gotNew_bootstrap _ _ _ hbs2] at h2
          simp at h2
          rw [← h2]
        · intro hb
          rw [hstep, hd]
          have hm := config_callback_keeps_flags _ _
            ClconfigEvent.gotNewConfig inst.confmon_config hbs2 (by simpa using hb)
          simpa using hm
    · have hd : timer_fire inst = inst := by
        unfold timer_fire
        rw [hbs]
        simp [harm]
      refine ⟨?_, ?_, ?_⟩
      · intro h hl bs2 h2
        rw [hstep, hd, hbs] at h2
        simp at h2
        rw [← h2]
        exact hl
      · intro hb bs2 h2
        rw [hstep, hd, hbs] at h2
        simp at h2
        rw [← h2]
        exact hb
      · intro hb
        rw [hstep, hd]
        exact ⟨rfl, rfl, rfl⟩
  | errEv now =>
    by_cases hc : now < bs.last_refresh + LCB_US2NS inst.weird_things_delay ∧
        bs.errcounter + 1 < inst.weird_things_threshold
    · have hd : step inst (Ev.errEv now) = { inst with bootstrap := some { bs with errcounter := bs.errcounter + 1 } } := by
        unfold step lcb_bootstrap_errcount_incr
        rw [hbs]
        simp [hc]
      refine ⟨?_, ?_, ?_⟩
      · intro h hl bs2 h2
        rw [hd] at h2
        simp at h2
        rw [← h2]
        exact hl
      · intro hb bs2 h2
        rw [hd] at h2
        simp at h2
        rw [← h2]
        exact hb
      · intro hb
        rw [hd]
        exact ⟨rfl, rfl, rfl⟩
    · have hd : step inst (Ev.errEv now) = (bootstrap_common { inst with bootstrap := some { bs with errcounter := 0 } } false now true).2 := by
        unfold step lcb_bootstrap_errcount_incr lcb_bootstrap_refresh
        rw [hbs]
        simp [hc]
      have hbs0 : ({ inst with bootstrap := some { bs with errcounter := 0 } } : Instance).bootstrap = some { bs with errcounter := 0 } := rfl
      have hp := bootstrap_common_preserves
        { inst with bootstrap := some { bs with errcounter := 0 } } false now true
      refine ⟨?_, ?_, ?_⟩
      · intro h hl bs2 h2
        rw [hd] at h2
        have hm := hp.2.2 _ hbs0 (by simpa using hl) rfl
        rw [h2] at hm
        simp at hm
        exact hm
      · intro hb bs2 h2
        rw [hd] at h2
        have hm := hp.2.1 _ hbs0
        rw [h2] at hm
        simp at hm
        rw [hm]
        simpa using hb
      · intro hb
        rw [hd]
        have hm := hp.1
        simpa using hm
  | destroyEv =>
    have hd : (step inst Ev.destroyEv).bootstrap = none := by
      unfold step lcb_bootstrap_destroy
      rw [hbs]
    have hflags : (step inst Ev.destroyEv).cccp_active = inst.cccp_active ∧
        (step inst Ev.destroyEv).http_active = inst.http_active ∧
        (step inst Ev.destroyEv).bc_http_stream_time = inst.bc_http_stream_time := by
      unfold step lcb_bootstrap_destroy
      rw [hbs]
      exact ⟨rfl, rfl, rfl⟩
    refine ⟨?_, ?_, ?_⟩
    · intro h hl bs2 h2
      rw [hd] at h2
      cases h2
    · intro hb bs2 h2
      rw [hd] at h2
      cases h2
    · intro hb
      exact hflags

/-- C4: processing a new-config-available event in the configuration-event
handler always switches the listener target to the Deferred target
(idempotently), and for every event other than a fresh Initial bootstrap a
Deferred listener target stays Deferred — so the Synchronous target exists
only between a `begin_initial_bootstrap` call and the first processed
new-config event, and the only transition back to Synchronous is a fresh
Initial bootstrap. -/
theorem listener_target_invariant (inst : Instance) (bs : Bootstrap)
    (hbs : inst.bootstrap = some bs) :
    (∀ info, ((config_callback inst ClconfigEvent.gotNewConfig info).bootstrap).map
        Bootstrap.listenerCallback = some CallbackTarget.asyncStep) ∧
    (∀ ev, (∀ now ok, ev ≠ Ev.initEv now ok) →
      bs.listenerCallback = CallbackTarget.asyncStep →
      ∀ bs2, (step inst ev).bootstrap = some bs2 →
        bs2.listenerCallback = CallbackTarget.asyncStep) := by
  constructor
  · intro info
    rw [config_callback_gotNew_bootstrap inst bs info hbs]
    rfl
  · intro ev h hl bs2 h2
    exact (step_preserves inst bs ev hbs).1 h hl bs2 h2

theorem listener_target_invariant_witness :
    ((config_callback pendingInstance ClconfigEvent.gotNewConfig none).bootstrap).map
        Bootstrap.listenerCallback = some CallbackTarget.asyncStep ∧
    Bootstrap.listenerCallback
        { listenerCallback := CallbackTarget.asyncStep,
          tm := { armed := true, target := TimerTarget.asyncRefreshT },
          last_refresh := 5, bootstrapped := true, errcounter := 0 }
      = CallbackTarget.asyncStep :=
  ⟨(listener_target_invariant pendingInstance pendingBs rfl).1 none,
   (listener_target_invariant pendingInstance pendingBs rfl).2
     (Ev.refreshEv 5 true) (by intro a b h; cases h) rfl
     { listenerCallback := CallbackTarget.asyncStep,
       tm := { armed := true, target := TimerTarget.asyncRefreshT },
       last_refresh := 5, bootstrapped := true, errcounter := 0 }
     (by decide)⟩

/-- C8: on the first success (a new-config event carrying a config while
`bootstrapped` is false) the flag becomes true, the pending-operation
counter is decremented exactly once, the completion callback is invoked with
success, and the provider flags are adjusted (cluster-push disabled,
HTTP-streaming enabled, stream time set to -1) exactly when the owner is a
bucket-type instance with ketama distribution and the winning config did not
come from the raw-memcached provider; moreover `bootstrapped` never becomes
false again under any event, and once it is true no event touches the
provider flags, so the adjustment policy runs at most once per session. -/
theorem first_success_resolution (inst : Instance) (bs : Bootstrap)
    (ci : ConfigInfo) (hbs : inst.bootstrap = some bs)
    (hb : bs.bootstrapped = false) :
    ((config_callback inst ClconfigEvent.gotNewConfig (some ci)).bootstrap).map
        Bootstrap.bootstrapped = some true ∧
    (config_callback inst ClconfigEvent.gotNewConfig (some ci)).pendops
      = inst.pendops - 1 ∧
    (config_callback inst ClconfigEvent.gotNewConfig (some ci)).bootstrapCalls
      = inst.bootstrapCalls ++ [LcbError.success] ∧
    (inst.type_ = LcbType.bucket ∧ inst.dist_type = DistType.ketama ∧
        ci.origin ≠ Provider.mcraw →
      (config_callback inst ClconfigEvent.gotNewConfig (some ci)).cccp_active
          = false ∧
      (config_callback inst ClconfigEvent.gotNewConfig (some ci)).http_active
          = true ∧
      (config_callback inst ClconfigEvent.gotNewConfig (some ci)).bc_http_stream_time
          = -1) ∧
    (¬ (inst.type_ = LcbType.bucket ∧ inst.dist_type = DistType.ketama ∧
        ci.origin ≠ Provider.mcraw) →
      (config_callback inst ClconfigEvent.gotNewConfig (some ci)).cccp_active
          = inst.cccp_active ∧
      (config_callback inst ClconfigEvent.gotNewConfig (some ci)).http_active
          = inst.http_active ∧
      (config_callback inst ClconfigEvent.gotNewConfig (some ci)).bc_http_stream_time
          = inst.bc_http_stream_time) ∧
    (∀ ev inst2 bs2, inst2.bootstrap = some bs2 → bs2.bootstrapped = true →
      (∀ bs3, (step inst2 ev).bootstrap = some bs3 → bs3.bootstrapped = true) ∧
      ((step inst2 ev).cccp_active = inst2.cccp_active ∧
       (step inst2 ev).http_active = inst2.http_active ∧
       (step inst2 ev).bc_http_stream_time = inst2.bc_http_stream_time)) := by
  refine ⟨?_, ?_, ?_, ?_, ?_, ?_⟩
  · rw [config_callback_gotNew_bootstrap inst bs (some ci) hbs]
    rfl
  · unfold config_callback
    rw [hbs]
    simp [hb, lcb_update_vbconfig]
    (repeat' split) <;> simp
  · unfold config_callback
    rw [hbs]
    simp [hb, lcb_update_vbconfig]
    (repeat' split) <;> simp
  · intro hc
    unfold config_callback
    rw [hbs]
    simp [hb, hc.1, hc.2.1, lcb_update_vbconfig, curOriginNotMcraw, hc.2.2]
  · intro hc
    unfold config_callback
    rw [hbs]
    by_cases ht : inst.type_ = LcbType.bucket
    · by_cases hdt : inst.dist_type = DistType.ketama
      · by_cases ho : ci.origin = Provider.mcraw
        · simp [hb, ht, hdt, ho, lcb_update_vbconfig, curOriginNotMcraw]
        · exact absurd ⟨ht, hdt, ho⟩ hc
      · simp [hb, ht, hdt, lcb_update_vbconfig, curOriginNotMcraw]
    · have ht2 : inst.type_ = LcbType.cluster := by
        cases h : inst.type_ <;> simp_all
      simp [hb, ht2, lcb_update_vbconfig]
  · intro ev inst2 bs2 h2 hb2
    exact ⟨(step_preserves inst2 bs2 ev h2).2.1 hb2,
           (step_preserves inst2 bs2 ev h2).2.2 hb2⟩

theorem first_success_resolution_witness :
    ((config_callback { sessionedInstance with dist_type := DistType.ketama }
        ClconfigEvent.gotNewConfig (some { origin := Provider.http })).bootstrap).map
      Bootstrap.bootstrapped = some true ∧
    (config_callback { sessionedInstance with dist_type := DistType.ketama }
        ClconfigEvent.gotNewConfig (some { origin := Provider.http })).cccp_active
      = false ∧
    (config_callback { sessionedInstance with dist_type := DistType.ketama }
        ClconfigEvent.gotNewConfig (some { origin := Provider.http })).http_active
      = true := by
  have h := first_success_resolution
    { sessionedInstance with dist_type := DistType.ketama } (sessionBs 0)
    { origin := Provider.http } (by decide) rfl
  exact ⟨h.1, (h.2.2.2.1 (by decide)).1, (h.2.2.2.1 (by decide)).2.1⟩

/-- C10: `lcb_bootstrap_errcount_incr` is defined exactly when a session
exists (it unconditionally dereferences `instance->bootstrap`, so the
partial embedding yields a value iff `bootstrap` is non-null, and under that
precondition the error branch is unreachable); the other entry points handle
the no-session case explicitly: `lcb_bootstrap_destroy` is a no-op without a
session and the status query reads no session state at all (bootstrap and
refresh allocate, per the C6 theorem). -/
theorem errcount_incr_requires_session :
    (∀ inst now, (lcb_bootstrap_errcount_incr inst now).isSome
        = inst.bootstrap.isSome) ∧
    (∀ inst, inst.bootstrap = none → lcb_bootstrap_destroy inst = inst) ∧
    (∀ inst, lcb_get_bootstrap_status inst
        = lcb_get_bootstrap_status { inst with bootstrap := none }) := by
  refine ⟨?_, ?_, ?_⟩
  · intro inst now
    unfold lcb_bootstrap_errcount_incr
    cases hb : inst.bootstrap
    · simp
    · simp only [hb]
      split <;> simp
  · intro inst h
    unfold lcb_bootstrap_destroy
    rw [h]
  · intro inst
    rfl

theorem errcount_incr_requires_session_witness :
    lcb_bootstrap_destroy (freshInstance LcbType.bucket DistType.vbucket)
      = freshInstance LcbType.bucket DistType.vbucket ∧
    (lcb_bootstrap_errcount_incr (freshInstance LcbType.bucket DistType.vbucket)
        0).isSome = false :=
  ⟨errcount_incr_requires_session.2.1 _ rfl,
   (errcount_incr_requires_session.1 (freshInstance LcbType.bucket DistType.vbucket)
      0).trans rfl⟩
